import Mathlib

/-!
Shallow embedding of qmgr (`main.go`), a personal QEMU virtual-machine
launcher, together with theorems checking its specification.

The Go program stores named VM configurations as JSON files in a per-user
directory, translates a configuration into a `qemu-system-x86_64` argument
list, and delegates to subprocesses (qemu, qemu-img, an editor).

Modelling conventions:
* Go `uint` fields become `Nat` (no arithmetic is performed on them, so no
  wrap-around can be observed).
* `fmt.Sprintf` with `%d` on a `uint` becomes `toString : Nat → String`
  (decimal, no sign — identical output).
* `filepath.Join(a, b, c)` becomes `a ++ "/" ++ b ++ "/" ++ c`; the inputs
  the program joins are clean relative/absolute segments, on which Go's
  `Join` is exactly slash-concatenation.
* The pointer mutation `config.Cores = uint(runtime.NumCPU())` inside
  `launchVM` is made visible by returning the final state of the pointed-to
  record alongside the argument list.
* `runtime.NumCPU()` is a parameter `numCPU`.
* JSON encoding/decoding (`encoding/json` with the struct tags in the
  source) is embedded at the JSON-value level: pretty-printing whitespace
  does not affect the value, so the store round-trip is stated on values.
* Process side effects are reified as an `Effect` trace; the environment
  (current user lookup, subprocess success/failure, `VISUAL`/`EDITOR`)
  is a record `Env` of oracles.
-/

/-- `Port` from `main.go`: a TCP forward, fields `Guest` and `Host` (Go `uint`). -/
structure Port where
  guest : Nat
  host : Nat
deriving Repr, DecidableEq

/-- `Drive` from `main.go`: fields `Path` and `Type` (Go `string`). -/
structure Drive where
  path : String
  type : String
deriving Repr, DecidableEq

/-- `VMConfig` from `main.go`. -/
structure VMConfig where
  name : String
  memory : String
  drives : List Drive
  ports : List Port
  cores : Nat
  fullscreen : Bool
deriving Repr, DecidableEq

/-- `const ConfigDir = ".config/qmgr/configs"` -/
def ConfigDir : String := ".config/qmgr/configs"

/-- `const DiskDir = ".config/qmgr/disks"` -/
def DiskDir : String := ".config/qmgr/disks"

/-- `const QemuExec = "qemu-system-x86_64"` -/
def QemuExec : String := "qemu-system-x86_64"

/-- `const QemuImg = "qemu-img"` -/
def QemuImg : String := "qemu-img"

/-- The arguments contributed by one iteration of the drive loop in
`launchVM` (lines 208–222): skip empty paths, then dispatch on `Type`
(`"img"`, `"qcow2"`, `"iso"`; any other type appends nothing). -/
def driveArgs (idx : Nat) (drive : Drive) : List String :=
  if drive.path = "" then []
  else
    match drive.type with
    | "img" =>
        ["-drive", "if=none,id=usb" ++ toString idx ++ ",format=raw,file=" ++ drive.path,
         "-device", "usb-storage,bus=xhci.0,drive=usb" ++ toString idx]
    | "qcow2" =>
        ["-drive", "if=virtio,format=qcow2,file=" ++ drive.path]
    | "iso" =>
        ["-cdrom", drive.path]
    | _ => []

/-- The whole `for idx, drive := range config.Drives` loop of `launchVM`,
with `idx` starting at the given value (the program starts it at 0). -/
def drivesArgs (idx : Nat) : List Drive → List String
  | [] => []
  | d :: ds => driveArgs idx d ++ drivesArgs (idx + 1) ds

/-- `fmt.Sprintf("tcp::%d-:%d", fwd.Host, fwd.Guest)` from `launchVM`. -/
def hostfwd (fwd : Port) : String :=
  "tcp::" ++ toString fwd.host ++ "-:" ++ toString fwd.guest

/-- The single `-netdev` argument pair of `launchVM` (lines 230–236):
emitted only when `len(config.Ports) > 0`, concatenating the forwards
with commas in stored order. -/
def netArgs (ports : List Port) : List String :=
  if ports.length > 0 then
    ["-netdev", "user,id=net0,hostfwd=" ++ String.intercalate "," (ports.map hostfwd)]
  else []

/-- Everything `launchVM` appends to `args` before the ports block:
the fixed preamble (lines 201–207), the drive loop, the
`-enable-kvm -cpu host -smp N` block (with the cores-0 substitution of
lines 223–226), and the optional fullscreen display flag. -/
def preArgs (config : VMConfig) (numCPU : Nat) : List String :=
  ["-m", config.memory,
   "-machine", "q35",
   "-device", "qemu-xhci,id=xhci",
   "-device", "usb-kbd",
   "-device", "usb-tablet",
   "-device", "virtio-net,netdev=net0"]
  ++ drivesArgs 0 config.drives
  ++ ["-enable-kvm", "-cpu", "host",
      "-smp", toString (if config.cores = 0 then numCPU else config.cores)]
  ++ (if config.fullscreen then ["-display", "gtk,full-screen=on"] else [])

/-- The argument-construction phase of `launchVM` (lines 200–236).
Returns the built argument list together with the final state of the
`*VMConfig` the function received: the Go code executes
`config.Cores = uint(runtime.NumCPU())` when the stored count is 0,
mutating the caller's record, and this pair makes that mutation visible. -/
def launchVMArgs (config : VMConfig) (numCPU : Nat) : List String × VMConfig :=
  (preArgs config numCPU ++ netArgs config.ports,
   { config with cores := if config.cores = 0 then numCPU else config.cores })

example : driveArgs 1 ⟨"/d/a.qcow2", "qcow2"⟩ =
    ["-drive", "if=virtio,format=qcow2,file=/d/a.qcow2"] := by decide

example : driveArgs 0 ⟨"", "qcow2"⟩ = [] := by decide

example : driveArgs 2 ⟨"/x", "weird"⟩ = [] := by decide

example : netArgs [⟨22, 2222⟩] = ["-netdev", "user,id=net0,hostfwd=tcp::2222-:22"] := by decide

/-! ## JSON values

`writeConfig` serializes with `encoding/json` (pretty-printed) and
`readConfig` deserializes.  Whitespace does not affect the decoded value,
so the store is embedded at the level of JSON values. -/

/-- A JSON value. -/
inductive Json where
  | null
  | bool (b : Bool)
  | num (n : Nat)
  | str (s : String)
  | arr (elems : List Json)
  | obj (fields : List (String × Json))
deriving Repr

/-- `encoding/json` marshalling of a `Drive`: struct fields in declaration
order under their tags `path`, `type`. -/
def encodeDrive (d : Drive) : Json :=
  .obj [("path", .str d.path), ("type", .str d.type)]

/-- `encoding/json` marshalling of a `Port`: tags `guest`, `host`;
Go `uint` marshals as a decimal number. -/
def encodePort (p : Port) : Json :=
  .obj [("guest", .num p.guest), ("host", .num p.host)]

/-- `encoding/json` marshalling of a `VMConfig`: struct fields in
declaration order under their tags. -/
def encodeVMConfig (c : VMConfig) : Json :=
  .obj [("name", .str c.name),
        ("memory", .str c.memory),
        ("drives", .arr (c.drives.map encodeDrive)),
        ("ports", .arr (c.ports.map encodePort)),
        ("cores", .num c.cores),
        ("fullscreen", .bool c.fullscreen)]

/-- One key/value pair applied to a partially decoded `Drive`:
a matching key of the right type overwrites the field, `null` leaves it
unchanged, a type mismatch is a decode error, an unknown key is ignored
(Go's decoder also matches keys case-insensitively; the files this
program reads back were written by `encodeVMConfig`, whose keys are the
exact tags, so exact matching is the exercised behaviour). -/
def driveApplyField (d : Drive) (k : String) (v : Json) : Option Drive :=
  match k, v with
  | "path", .str s => some { d with path := s }
  | "path", .null => some d
  | "path", _ => none
  | "type", .str s => some { d with type := s }
  | "type", .null => some d
  | "type", _ => none
  | _, _ => some d

/-- `encoding/json` unmarshalling of a `Drive`, starting from the zero
value and folding the object's fields in order (later duplicates win). -/
def decodeDrive : Json → Option Drive
  | .obj fields => fields.foldlM (fun d kv => driveApplyField d kv.1 kv.2) ⟨"", ""⟩
  | .null => some ⟨"", ""⟩
  | _ => none

/-- One key/value pair applied to a partially decoded `Port`. -/
def portApplyField (p : Port) (k : String) (v : Json) : Option Port :=
  match k, v with
  | "guest", .num n => some { p with guest := n }
  | "guest", .null => some p
  | "guest", _ => none
  | "host", .num n => some { p with host := n }
  | "host", .null => some p
  | "host", _ => none
  | _, _ => some p

/-- `encoding/json` unmarshalling of a `Port`. -/
def decodePort : Json → Option Port
  | .obj fields => fields.foldlM (fun p kv => portApplyField p kv.1 kv.2) ⟨0, 0⟩
  | .null => some ⟨0, 0⟩
  | _ => none

/-- One key/value pair applied to a partially decoded `VMConfig`. -/
def vmApplyField (c : VMConfig) (k : String) (v : Json) : Option VMConfig :=
  match k, v with
  | "name", .str s => some { c with name := s }
  | "name", .null => some c
  | "name", _ => none
  | "memory", .str s => some { c with memory := s }
  | "memory", .null => some c
  | "memory", _ => none
  | "drives", .arr xs => (xs.mapM decodeDrive).map (fun ds => { c with drives := ds })
  | "drives", .null => some c
  | "drives", _ => none
  | "ports", .arr xs => (xs.mapM decodePort).map (fun ps => { c with ports := ps })
  | "ports", .null => some c
  | "ports", _ => none
  | "cores", .num n => some { c with cores := n }
  | "cores", .null => some c
  | "cores", _ => none
  | "fullscreen", .bool b => some { c with fullscreen := b }
  | "fullscreen", .null => some c
  | "fullscreen", _ => none
  | _, _ => some c

/-- `json.NewDecoder(file).Decode(&config)` with `config := &VMConfig{}`:
start from the zero value and fold the object's fields in order. -/
def decodeVMConfig : Json → Option VMConfig
  | .obj fields => fields.foldlM (fun c kv => vmApplyField c kv.1 kv.2) ⟨"", "", [], [], 0, false⟩
  | .null => some ⟨"", "", [], [], 0, false⟩
  | _ => none

/-! ## Config store

The per-user filesystem is a partial map from path to stored JSON value. -/

/-- `filepath.Join(usr.HomeDir, ConfigDir, name + ".json")` from
`readConfig`/`writeConfig`. -/
def configPath (home name : String) : String :=
  home ++ "/" ++ ConfigDir ++ "/" ++ name ++ ".json"

/-- `filepath.Join(usr.HomeDir, DiskDir, name + ".qcow2")` from `newDisk`. -/
def diskPath (home name : String) : String :=
  home ++ "/" ++ DiskDir ++ "/" ++ name ++ ".qcow2"

/-- `writeConfig` (lines 172–197), value level: serialize `config` and
store it at `configPath`, overwriting; return the path written together
with the updated filesystem. -/
def writeConfig (home name : String) (config : VMConfig) (fs : String → Option Json) :
    String × (String → Option Json) :=
  let filePath := configPath home name
  (filePath, fun p => if p = filePath then some (encodeVMConfig config) else fs p)

/-- `readConfig` (lines 149–170), value level: open the file at
`configPath` (`none` when absent) and deserialize into a fresh
`VMConfig` (`none` on a decode error). -/
def readConfig (home name : String) (fs : String → Option Json) : Option VMConfig :=
  match fs (configPath home name) with
  | none => none
  | some j => decodeVMConfig j

/-- `strings.TrimSuffix(file.Name(), ".json")` from `listConfigs`:
drop the suffix when present, otherwise return the string unchanged
(expressed on the character lists so that it evaluates inside the
kernel; for the all-ASCII suffixes the program uses this agrees with
Go's byte-level suffix test on valid UTF-8 names). -/
def trimSuffix (s suffix : String) : String :=
  if suffix.data.isSuffixOf s.data then
    { data := s.data.take (s.data.length - suffix.data.length) }
  else s

/-- Outcome of `os.ReadDir`: a file listing, a does-not-exist error, or
any other error. -/
inductive ReadDirResult where
  | ok (files : List String)
  | notExist
  | err (e : String)
deriving Repr, DecidableEq

/-- The branch of `listConfigs` (lines 132–147) after `os.ReadDir`
returns: a does-not-exist error is tolerated (the nil listing yields nil
names and a nil error); any other error is wrapped and returned; on
success every name is returned with the `.json` suffix stripped. -/
def listConfigsAux : ReadDirResult → Except String (List String)
  | .ok files => .ok (files.map (fun f => trimSuffix f ".json"))
  | .notExist => .ok []
  | .err e => .error ("reading config file directory: " ++ e)

/-- `listConfigs`: resolve the current user (propagating its error
wrapped), read the per-user config directory, and post-process with
`listConfigsAux`. -/
def listConfigs (userRes : Except String String)
    (readDir : String → ReadDirResult) : Except String (List String) :=
  match userRes with
  | .error e => .error ("getting current user: " ++ e)
  | .ok home => listConfigsAux (readDir (home ++ "/" ++ ConfigDir))

example : listConfigsAux .notExist = .ok [] := rfl

example : listConfigsAux (.ok ["a.json", "b.txt"]) = .ok ["a", "b.txt"] := rfl

/-! ## The CLI dispatcher as an effect trace -/

/-- An observable action of one program invocation, in order:
a subprocess launch, a config-file write, a line on stdout or stderr,
`os.Exit`, or a `panic`. -/
inductive Effect where
  | exec (prog : String) (args : List String)
  | writeFile (path : String) (content : Json)
  | stdout (line : String)
  | stderr (line : String)
  | exit (code : Nat)
  | panicked (msg : String)
deriving Repr

/-- The host environment one invocation runs against: the result of
`user.Current()` (its home directory, or an error), the directory
listing oracle, the stored files, whether/how each subprocess fails
(`none` means success, `some e` the error text Go would wrap), the
`VISUAL` and `EDITOR` variables, and `runtime.NumCPU()`. -/
structure Env where
  userRes : Except String String
  readDir : String → ReadDirResult
  fs : String → Option Json
  qemuImgErr : Option String
  qemuErr : Option String
  mkdirErr : Option String
  createFileErr : Option String
  editorErr : Option String
  visual : String
  editorVar : String
  numCPU : Nat

/-- The editor binary chosen by `editor` (lines 268–272): `VISUAL` when
non-empty, else `EDITOR`. -/
def editorProg (env : Env) : String :=
  if env.visual = "" then env.editorVar else env.visual

/-- `editor(file)` (lines 268–283): launch the chosen editor on the file;
a failure is wrapped as `opening editor: …`. -/
def editorRun (env : Env) (file : String) : List Effect × Option String :=
  ([.exec (editorProg env) [file]],
   match env.editorErr with
   | some e => some ("opening editor: " ++ e)
   | none => none)

/-- `newDisk(name, size)` (lines 250–262): resolve the user, invoke
`qemu-img create -f qcow2 <diskPath> <size>`, and return the disk path;
failures are wrapped. -/
def newDisk (env : Env) (name size : String) : List Effect × Except String String :=
  match env.userRes with
  | .error e => ([], .error ("getting current user: " ++ e))
  | .ok home =>
      ([.exec QemuImg ["create", "-f", "qcow2", diskPath home name, size]],
       match env.qemuImgErr with
       | some e => .error ("creating disk image: " ++ e)
       | none => .ok (diskPath home name))

/-- `writeConfig` (lines 172–197) as run by `main`: resolve the user,
create the config directory, create the file, serialize; the write shows
up as a `writeFile` effect and the path written is returned. -/
def writeConfigRun (env : Env) (name : String) (config : VMConfig) :
    List Effect × Except String String :=
  match env.userRes with
  | .error e => ([], .error ("getting current user: " ++ e))
  | .ok home =>
      match env.mkdirErr with
      | some e => ([], .error ("creating config directory: " ++ e))
      | none =>
          match env.createFileErr with
          | some e => ([], .error ("creating config: " ++ e))
          | none =>
              ([.writeFile (configPath home name) (encodeVMConfig config)],
               .ok (configPath home name))

/-- `readConfig` (lines 149–170) as run by `main`: resolve the user, open
and decode the stored file, wrapping each failure. -/
def readConfigRun (env : Env) (name : String) : Except String VMConfig :=
  match env.userRes with
  | .error e => .error ("getting current user: " ++ e)
  | .ok home =>
      match env.fs (configPath home name) with
      | none => .error "opening config: file does not exist"
      | some j =>
          match decodeVMConfig j with
          | none => .error "decoding config: invalid value"
          | some c => .ok c

/-- `fmt.Printf("cmd.Args: %v\n", cmd.Args)` from `launchVM`: Go's `%v`
on a string slice prints the elements space-separated in brackets. -/
def cmdArgsLine (args : List String) : String :=
  "cmd.Args: [" ++ String.intercalate " " (QemuExec :: args) ++ "]"

/-- `launchVM` (lines 199–248) as run by `main`: build the argument list,
print the command line, launch qemu with inherited streams; a non-nil
`cmd.Run` error is wrapped as `executing qemu: …`. -/
def launchVMRun (env : Env) (config : VMConfig) : List Effect × Option String :=
  let args := (launchVMArgs config env.numCPU).1
  ([.stdout (cmdArgsLine args), .exec QemuExec args],
   match env.qemuErr with
   | some e => some ("executing qemu: " ++ e)
   | none => none)

/-- The usage text `main` prints when no command is given. -/
def usageMsg : String :=
  "no command given\n  run <name>\n  list\n  create <name>\n  edit <name>"

/-- `main` (lines 38–130) as a trace of effects, given `os.Args` (the
program name included) and the environment.  With fewer than two
arguments it prints usage on stderr and returns; otherwise it switches
on the command token — and the switch has no default case, so an
unrecognized token produces no effect at all. -/
def mainRun (argv : List String) (env : Env) : List Effect :=
  match argv with
  | [] => [.stderr usageMsg]
  | [_] => [.stderr usageMsg]
  | _ :: cmd :: rest =>
      match cmd with
      | "list" =>
          (match listConfigs env.userRes env.readDir with
           | .error e => [.panicked e]
           | .ok configs => configs.map .stdout)
      | "run" =>
          (match rest with
           | [] => [.stderr "no run name", .exit 1]
           | name :: _ =>
               match readConfigRun env name with
               | .error e => [.stderr e, .exit 1]
               | .ok config =>
                   let (effs, res) := launchVMRun env config
                   effs ++ (match res with
                            | some e => [.panicked e]
                            | none => []))
      | "create" =>
          (match rest with
           | [] => [.stderr "no create name", .exit 1]
           | name :: rest2 =>
               let size := match rest2 with
                           | [] => "64G"
                           | s :: _ => s
               let (diskEffs, diskRes) := newDisk env name size
               let (dPath, diskErrEffs) :=
                 match diskRes with
                 | .ok p => (p, ([] : List Effect))
                 | .error e => ("", [.stderr e])
               let config : VMConfig :=
                 { name := name
                   memory := "2G"
                   drives := [⟨"", "img"⟩, ⟨dPath, "qcow2"⟩, ⟨"", "iso"⟩]
                   ports := [⟨22, 2222⟩]
                   cores := 0
                   fullscreen := false }
               let (writeEffs, writeRes) := writeConfigRun env name config
               diskEffs ++ diskErrEffs ++ writeEffs ++
                 (match writeRes with
                  | .error e => [.stderr e, .exit 1]
                  | .ok cfgPath =>
                      let (edEffs, edRes) := editorRun env cfgPath
                      [.stdout cfgPath] ++ edEffs ++
                        (match edRes with
                         | some e => [.stderr ("editing config: " ++ e), .exit 1]
                         | none => [])))
      | "edit" =>
          (match rest with
           | [] => [.stderr "no edit name", .exit 1]
           | name :: _ =>
               let cfgPath := "~" ++ "/" ++ ConfigDir ++ "/" ++ name ++ ".json"
               let (edEffs, edRes) := editorRun env cfgPath
               edEffs ++
                 (match edRes with
                  | some e => [.stderr ("editing config: " ++ e)]
                  | none => []))
      | _ => []

/-- A fully successful sample environment for concrete evaluations. -/
def env0 : Env :=
  { userRes := .ok "/home/user"
    readDir := fun _ => .notExist
    fs := fun _ => none
    qemuImgErr := none
    qemuErr := none
    mkdirErr := none
    createFileErr := none
    editorErr := none
    visual := "vi"
    editorVar := ""
    numCPU := 4 }

/-! ## Helper lemmas -/

/-- The drive loop distributes over list append, the running index
advancing by the length of the first part. -/
theorem drivesArgs_append (l1 l2 : List Drive) (idx : Nat) :
    drivesArgs idx (l1 ++ l2) = drivesArgs idx l1 ++ drivesArgs (idx + l1.length) l2 := by
  induction l1 generalizing idx with
  | nil => simp [drivesArgs]
  | cons d ds ih =>
      have harith : idx + 1 + ds.length = idx + (ds.length + 1) := by omega
      simp only [List.cons_append, drivesArgs, List.append_eq, ih, List.length_cons,
        List.append_assoc, harith]

/-! ## Claims -/

/-- **C1.** A drive entry whose path is the empty string, or whose type is
none of `"img"`, `"qcow2"`, `"iso"`, contributes zero strings to the
argument list built by `launchVM`, regardless of the other field's value
(replacing such an entry by the all-empty drive leaves the built list
unchanged, index bookkeeping included); and only a drive with a non-empty
path and a recognized type emits arguments. -/
theorem C1_skipped_drives (idx i : Nat) (d d' : Drive) (cfg : VMConfig) (ncpu : Nat)
    (ds1 ds2 : List Drive)
    (h : d.path = "" ∨ (d.type ≠ "img" ∧ d.type ≠ "qcow2" ∧ d.type ≠ "iso"))
    (h' : driveArgs i d' ≠ []) :
    driveArgs idx d = []
    ∧ (launchVMArgs { cfg with drives := ds1 ++ d :: ds2 } ncpu).1
        = (launchVMArgs { cfg with drives := ds1 ++ (⟨"", ""⟩ : Drive) :: ds2 } ncpu).1
    ∧ d'.path ≠ "" ∧ (d'.type = "img" ∨ d'.type = "qcow2" ∨ d'.type = "iso") := by
  have hnil : ∀ (j : Nat) (e : Drive),
      e.path = "" ∨ (e.type ≠ "img" ∧ e.type ≠ "qcow2" ∧ e.type ≠ "iso") →
      driveArgs j e = [] := by
    intro j e he
    unfold driveArgs
    by_cases hp : e.path = ""
    · simp [hp]
    · rcases he with he | ⟨h1, h2, h3⟩
      · exact absurd he hp
      · rw [if_neg hp]
        split
        · exact absurd (by assumption) h1
        · exact absurd (by assumption) h2
        · exact absurd (by assumption) h3
        · rfl
  have hd : driveArgs idx d = [] := hnil idx d h
  refine ⟨hd, ?_, ?_⟩
  · have hempty : ∀ j, driveArgs j (⟨"", ""⟩ : Drive) = [] := by
      intro j; rfl
    simp only [launchVMArgs, preArgs, drivesArgs_append, drivesArgs,
      hnil _ d h, hempty, List.nil_append]
  · constructor
    · intro hp
      apply h'
      unfold driveArgs
      simp [hp]
    · by_contra hcon
      push_neg at hcon
      exact h' (hnil i d' (Or.inr hcon))

/-- Closed instance of `C1_skipped_drives`: the empty-path `img` drive and
the unrecognized-type drive emit nothing, an `iso` drive with a path does. -/
theorem C1_skipped_drives_witness :
    driveArgs 0 (⟨"", "img"⟩ : Drive) = []
    ∧ (launchVMArgs ⟨"vm", "2G", [⟨"", "img"⟩], [], 1, false⟩ 4).1
        = (launchVMArgs ⟨"vm", "2G", [⟨"", ""⟩], [], 1, false⟩ 4).1
    ∧ (Drive.path ⟨"/a.iso", "iso"⟩ ≠ ""
        ∧ (Drive.type ⟨"/a.iso", "iso"⟩ = "img" ∨ Drive.type ⟨"/a.iso", "iso"⟩ = "qcow2"
            ∨ Drive.type ⟨"/a.iso", "iso"⟩ = "iso")) :=
  C1_skipped_drives 0 0 ⟨"", "img"⟩ ⟨"/a.iso", "iso"⟩ ⟨"vm", "2G", [], [], 1, false⟩ 4 [] []
    (Or.inl rfl) (by decide)

/-- **C2.** With an empty ports list `launchVM` appends no host-forwarding
network argument (the whole list is just the pre-ports part); with a
non-empty list it appends exactly one `-netdev` pair whose forward list
concatenates `tcp::{host}-:{guest}` per port, comma-separated, in stored
order; and `ports = [{guest := 22, host := 2222}]` yields the forwarding
string `tcp::2222-:22`. -/
theorem C2_port_forwarding (cfg : VMConfig) (ncpu : Nat) :
    (cfg.ports = [] → (launchVMArgs cfg ncpu).1 = preArgs cfg ncpu ∧ netArgs cfg.ports = [])
    ∧ (cfg.ports ≠ [] →
        (launchVMArgs cfg ncpu).1
          = preArgs cfg ncpu
            ++ ["-netdev",
                "user,id=net0,hostfwd="
                  ++ String.intercalate "," (cfg.ports.map hostfwd)])
    ∧ netArgs [⟨22, 2222⟩] = ["-netdev", "user,id=net0,hostfwd=tcp::2222-:22"] := by
  refine ⟨?_, ?_, by decide⟩
  · intro hp
    simp [launchVMArgs, netArgs, hp]
  · intro hp
    have hlen : 0 < cfg.ports.length := List.length_pos.mpr hp
    simp [launchVMArgs, netArgs, hlen]

/-- Closed instance of `C2_port_forwarding`: both the empty-ports branch
and the one-port branch, evaluated on concrete configurations. -/
theorem C2_port_forwarding_witness :
    ((launchVMArgs ⟨"a", "2G", [], [], 1, false⟩ 4).1 = preArgs ⟨"a", "2G", [], [], 1, false⟩ 4
      ∧ netArgs (VMConfig.ports ⟨"a", "2G", [], [], 1, false⟩) = [])
    ∧ (launchVMArgs ⟨"b", "2G", [], [⟨22, 2222⟩], 1, false⟩ 4).1
        = preArgs ⟨"b", "2G", [], [⟨22, 2222⟩], 1, false⟩ 4
          ++ ["-netdev",
              "user,id=net0,hostfwd="
                ++ String.intercalate ","
                    ((VMConfig.ports ⟨"b", "2G", [], [⟨22, 2222⟩], 1, false⟩).map hostfwd)] :=
  ⟨(C2_port_forwarding ⟨"a", "2G", [], [], 1, false⟩ 4).1 rfl,
   (C2_port_forwarding ⟨"b", "2G", [], [⟨22, 2222⟩], 1, false⟩ 4).2.1 (by decide)⟩

/-- **C3.** The core count in the `-smp` argument is the host's logical
processor count when the stored value is 0, and the stored value itself
otherwise (e.g. `cores = 4` yields `-smp 4`). -/
theorem C3_smp_core_count (cfg : VMConfig) (ncpu : Nat) :
    (cfg.cores = 0 → ["-smp", toString ncpu] <:+: (launchVMArgs cfg ncpu).1)
    ∧ (cfg.cores ≠ 0 → ["-smp", toString cfg.cores] <:+: (launchVMArgs cfg ncpu).1) := by
  have key : ["-smp", toString (if cfg.cores = 0 then ncpu else cfg.cores)]
      <:+: (launchVMArgs cfg ncpu).1 := by
    refine ⟨["-m", cfg.memory, "-machine", "q35", "-device", "qemu-xhci,id=xhci",
             "-device", "usb-kbd", "-device", "usb-tablet",
             "-device", "virtio-net,netdev=net0"]
            ++ drivesArgs 0 cfg.drives ++ ["-enable-kvm", "-cpu", "host"],
           (if cfg.fullscreen then ["-display", "gtk,full-screen=on"] else [])
            ++ netArgs cfg.ports, ?_⟩
    simp [launchVMArgs, preArgs]
  constructor
  · intro h0
    simpa [h0] using key
  · intro hn
    simpa [hn] using key

/-- Closed instance of `C3_smp_core_count`: `cores = 0` with a 4-CPU host
emits `-smp 4`; `cores = 3` emits `-smp 3`. -/
theorem C3_smp_core_count_witness :
    ["-smp", "4"] <:+: (launchVMArgs ⟨"a", "2G", [], [], 0, false⟩ 4).1
    ∧ ["-smp", "3"] <:+: (launchVMArgs ⟨"b", "2G", [], [], 3, false⟩ 4).1 :=
  ⟨(C3_smp_core_count ⟨"a", "2G", [], [], 0, false⟩ 4).1 rfl,
   (C3_smp_core_count ⟨"b", "2G", [], [], 3, false⟩ 4).2 (by decide)⟩

/-- **C4, counterexample.** The argument-construction phase of `launchVM`
is *not* side-effect-free on its input: with stored `cores = 0` and a
4-CPU host, the record behind the `*VMConfig` pointer ends with
`cores = 4`, so the input record has changed. -/
theorem C4_counterexample :
    (launchVMArgs ⟨"vm", "2G", [], [], 0, false⟩ 4).2 ≠ (⟨"vm", "2G", [], [], 0, false⟩ : VMConfig)
    ∧ (launchVMArgs ⟨"vm", "2G", [], [], 0, false⟩ 4).2.cores = 4 := by
  constructor
  · intro h
    have := congrArg VMConfig.cores h
    simp [launchVMArgs] at this
  · rfl

/-- **C4, amended.** Building the argument list leaves every field of the
input record unchanged *except* `cores`: when the stored `cores` is 0 the
record's `cores` is overwritten with the host processor count
(`config.Cores = uint(runtime.NumCPU())` mutates through the pointer),
and when `cores` is non-zero the record is returned entirely unchanged. -/
theorem C4_builder_mutation (cfg : VMConfig) (ncpu : Nat) :
    (launchVMArgs cfg ncpu).2
        = { cfg with cores := if cfg.cores = 0 then ncpu else cfg.cores }
    ∧ (launchVMArgs cfg ncpu).2.name = cfg.name
    ∧ (launchVMArgs cfg ncpu).2.memory = cfg.memory
    ∧ (launchVMArgs cfg ncpu).2.drives = cfg.drives
    ∧ (launchVMArgs cfg ncpu).2.ports = cfg.ports
    ∧ (launchVMArgs cfg ncpu).2.fullscreen = cfg.fullscreen
    ∧ (cfg.cores ≠ 0 → (launchVMArgs cfg ncpu).2 = cfg) := by
  refine ⟨rfl, rfl, rfl, rfl, rfl, rfl, ?_⟩
  intro hn
  simp [launchVMArgs, hn]

/-- Closed instance of `C4_builder_mutation`: a record with `cores = 3`
passes through the builder unchanged. -/
theorem C4_builder_mutation_witness :
    (launchVMArgs ⟨"vm", "2G", [], [], 3, false⟩ 7).2 = (⟨"vm", "2G", [], [], 3, false⟩ : VMConfig) :=
  (C4_builder_mutation ⟨"vm", "2G", [], [], 3, false⟩ 7).2.2.2.2.2.2 (by decide)

/-- Decoding undoes encoding for a `Drive`. -/
theorem decodeDrive_encodeDrive (d : Drive) : decodeDrive (encodeDrive d) = some d := rfl

/-- Decoding undoes encoding for a `Port`. -/
theorem decodePort_encodePort (p : Port) : decodePort (encodePort p) = some p := rfl

/-- Decoding undoes encoding element-wise for a drive list (stated on
`List.mapM.loop`, the form `List.mapM` unfolds to). -/
theorem mapM_loop_decodeDrive (l : List Drive) (acc : List Drive) :
    List.mapM.loop decodeDrive (l.map encodeDrive) acc = some (acc.reverse ++ l) := by
  induction l generalizing acc with
  | nil => simp [List.mapM.loop]
  | cons d ds ih => simp [List.mapM.loop, decodeDrive_encodeDrive, ih]

/-- Decoding undoes encoding element-wise for a port list. -/
theorem mapM_loop_decodePort (l : List Port) (acc : List Port) :
    List.mapM.loop decodePort (l.map encodePort) acc = some (acc.reverse ++ l) := by
  induction l generalizing acc with
  | nil => simp [List.mapM.loop]
  | cons p ps ih => simp [List.mapM.loop, decodePort_encodePort, ih]

/-- Decoding undoes encoding for a whole `VMConfig`. -/
theorem decodeVMConfig_encodeVMConfig (c : VMConfig) :
    decodeVMConfig (encodeVMConfig c) = some c := by
  cases c with
  | mk name memory drives ports cores fullscreen =>
      simp only [encodeVMConfig, decodeVMConfig, List.foldlM_cons, List.foldlM_nil]
      simp [vmApplyField, List.mapM, mapM_loop_decodeDrive, mapM_loop_decodePort]

/-- **C5.** Saving a configuration under a name and loading it back under
the same name returns a record equal to the original — in particular a
stored `cores = 0` comes back as `0`, untouched by the storage layer. -/
theorem C5_save_load_roundtrip (home name : String) (cfg : VMConfig)
    (fs : String → Option Json) :
    readConfig home name (writeConfig home name cfg fs).2 = some cfg
    ∧ (readConfig home name
        (writeConfig home name { cfg with cores := 0 } fs).2).map VMConfig.cores = some 0 := by
  have key : ∀ c : VMConfig, readConfig home name (writeConfig home name c fs).2 = some c := by
    intro c
    simp [readConfig, writeConfig, decodeVMConfig_encodeVMConfig]
  exact ⟨key cfg, by rw [key { cfg with cores := 0 }]; rfl⟩

/-- **C6.** When the per-user config directory does not exist,
`listConfigs` returns an empty name list and no error; any other
directory-read failure comes back as an error (wrapped). -/
theorem C6_list_missing_dir (home e : String) (readDir : String → ReadDirResult) :
    listConfigs (.ok home) readDir = listConfigsAux (readDir (home ++ "/" ++ ConfigDir))
    ∧ listConfigsAux .notExist = .ok []
    ∧ listConfigsAux (.err e) = .error ("reading config file directory: " ++ e) :=
  ⟨rfl, rfl, rfl⟩

/-- **C7.** `create vm1 32G` invokes the disk tool as
`qemu-img create -f qcow2 <diskDir>/vm1.qcow2 32G`, writes the config
file at `<configDir>/vm1.json` holding the template drives
(`img` empty, `qcow2` pointing at the new disk, `iso` empty) and the
default port forward `{guest := 22, host := 2222}`, prints the path and
invokes the editor on it; and when disk provisioning fails the error is
only printed — the config (with an empty `qcow2` path) is still written
and the editor still launched. -/
theorem C7_create_scenario (home e : String) :
    mainRun ["qmgr", "create", "vm1", "32G"] { env0 with userRes := .ok home } =
      [.exec QemuImg ["create", "-f", "qcow2", diskPath home "vm1", "32G"],
       .writeFile (configPath home "vm1")
         (encodeVMConfig
           ⟨"vm1", "2G",
            [⟨"", "img"⟩, ⟨diskPath home "vm1", "qcow2"⟩, ⟨"", "iso"⟩],
            [⟨22, 2222⟩], 0, false⟩),
       .stdout (configPath home "vm1"),
       .exec "vi" [configPath home "vm1"]]
    ∧ mainRun ["qmgr", "create", "vm1", "32G"]
        { env0 with userRes := .ok home, qemuImgErr := some e } =
      [.exec QemuImg ["create", "-f", "qcow2", diskPath home "vm1", "32G"],
       .stderr ("creating disk image: " ++ e),
       .writeFile (configPath home "vm1")
         (encodeVMConfig
           ⟨"vm1", "2G", [⟨"", "img"⟩, ⟨"", "qcow2"⟩, ⟨"", "iso"⟩], [⟨22, 2222⟩], 0, false⟩),
       .stdout (configPath home "vm1"),
       .exec "vi" [configPath home "vm1"]] :=
  ⟨rfl, rfl⟩

/-- **C8.** The config path the `edit` subcommand hands to the editor does
*not* equal the path `readConfig`/`writeConfig` use: `main` joins the
literal string `"~"` (which `exec.Command` passes through unexpanded)
instead of the user's home directory.  Evaluated at name `vm1` and home
directory `/home/user`: the editor receives
`~/.config/qmgr/configs/vm1.json`, the store uses
`/home/user/.config/qmgr/configs/vm1.json`, and the two differ. -/
theorem C8_edit_path_mismatch :
    mainRun ["qmgr", "edit", "vm1"] env0 = [.exec "vi" ["~/.config/qmgr/configs/vm1.json"]]
    ∧ configPath "/home/user" "vm1" = "/home/user/.config/qmgr/configs/vm1.json"
    ∧ ("~/.config/qmgr/configs/vm1.json" : String) ≠ "/home/user/.config/qmgr/configs/vm1.json" :=
  ⟨rfl, rfl, by decide⟩

/-- **C9, counterexample.** An invocation whose command token is
recognized by none of `list`, `run`, `create`, `edit` does *not* print a
usage message: the switch in `main` has no default case, so
`qmgr frobnicate` produces no effect at all (in particular nothing on the
error stream). -/
theorem C9_counterexample :
    mainRun ["qmgr", "frobnicate"] env0 = [] := rfl

/-- **C9, amended.** A missing command token prints the usage message to
the error stream and performs no other action; an *unrecognized* command
token performs no action and prints nothing; a missing required name
argument to `run`, `create` or `edit` prints an error to the error stream
and exits with code 1. -/
theorem C9_dispatch (env : Env) (cmd : String) (rest : List String)
    (h : cmd ≠ "list" ∧ cmd ≠ "run" ∧ cmd ≠ "create" ∧ cmd ≠ "edit") :
    mainRun ["qmgr"] env = [.stderr usageMsg]
    ∧ mainRun ("qmgr" :: cmd :: rest) env = []
    ∧ mainRun ["qmgr", "run"] env = [.stderr "no run name", .exit 1]
    ∧ mainRun ["qmgr", "create"] env = [.stderr "no create name", .exit 1]
    ∧ mainRun ["qmgr", "edit"] env = [.stderr "no edit name", .exit 1] := by
  obtain ⟨h1, h2, h3, h4⟩ := h
  refine ⟨rfl, ?_, rfl, rfl, rfl⟩
  unfold mainRun
  split
  all_goals simp_all

/-- Closed instance of `C9_dispatch`: `qmgr status` produces no effects,
`qmgr run` without a name prints the error and exits 1. -/
theorem C9_dispatch_witness :
    mainRun ["qmgr", "status"] env0 = []
    ∧ mainRun ["qmgr", "run"] env0 = [.stderr "no run name", .exit 1] :=
  ⟨(C9_dispatch env0 "status" [] (by decide)).2.1,
   (C9_dispatch env0 "status" [] (by decide)).2.2.1⟩

/-- **C10.** Every built argument list contains the fixed preamble pair
`-device virtio-net,netdev=net0` referencing `net0`; with an empty ports
list the port block appends nothing and the list is exactly the pre-ports
part, so `net0` is referenced but never defined by a `-netdev` argument. -/
theorem C10_net0_reference (cfg : VMConfig) (ncpu : Nat) :
    ["-device", "virtio-net,netdev=net0"] <:+: (launchVMArgs cfg ncpu).1
    ∧ (cfg.ports = [] →
        (launchVMArgs cfg ncpu).1 = preArgs cfg ncpu ∧ netArgs cfg.ports = []) := by
  constructor
  · refine ⟨["-m", cfg.memory, "-machine", "q35", "-device", "qemu-xhci,id=xhci",
             "-device", "usb-kbd", "-device", "usb-tablet"],
            drivesArgs 0 cfg.drives
              ++ (["-enable-kvm", "-cpu", "host",
                   "-smp", toString (if cfg.cores = 0 then ncpu else cfg.cores)]
                   ++ (if cfg.fullscreen then ["-display", "gtk,full-screen=on"] else [])
                   ++ netArgs cfg.ports), ?_⟩
    simp [launchVMArgs, preArgs]
  · intro hp
    simp [launchVMArgs, netArgs, hp]

/-- Closed instance of `C10_net0_reference`: a portless configuration
still references `net0` in its preamble while its port block is empty. -/
theorem C10_net0_reference_witness :
    ["-device", "virtio-net,netdev=net0"] <:+: (launchVMArgs ⟨"c", "1G", [], [], 2, false⟩ 4).1
    ∧ ((launchVMArgs ⟨"c", "1G", [], [], 2, false⟩ 4).1 = preArgs ⟨"c", "1G", [], [], 2, false⟩ 4
        ∧ netArgs (VMConfig.ports ⟨"c", "1G", [], [], 2, false⟩) = []) :=
  ⟨(C10_net0_reference ⟨"c", "1G", [], [], 2, false⟩ 4).1,
   (C10_net0_reference ⟨"c", "1G", [], [], 2, false⟩ 4).2 rfl⟩


